import Mathlib

/-
Verification of the Bela example programs:
  examples/Trill/trill-square-oscillator-pad-A/render.cpp
  examples/terminal-only/samples/main.cpp

Shallow embedding: machine floats are modelled by exact rationals (the
quantities involved stay far inside the exactly-representable range of
IEEE single precision), C `int` by `Int`, and the float expression
`(int)floor(1.0f * sum / count)` by an `Option Int` that is `none` when
`count = 0` (there the C code computes `0.0f / 0.0f = NaN` and converts
NaN to `int`, which is undefined behaviour: no defined value exists).
-/

/-- Modelled from the spec: the Bela utility `map` (declared in the Bela
runtime, not part of the example sources) performs the linear transform
`out = outMin + (value - inMin) * (outMax - outMin) / (inMax - inMin)`,
with the documented fallback policy of returning `outMin` when the input
range is degenerate (`inMax == inMin`), instead of dividing by zero. -/
def map (value inMin inMax outMin outMax : ℚ) : ℚ :=
  if inMax = inMin then outMin
  else outMin + (value - inMin) * (outMax - outMin) / (inMax - inMin)

/-- Modelled from the spec: the Bela utility `constrain` (declared in the
Bela runtime, not part of the example sources) restricts a value to the
closed interval `[lo, hi]`. -/
def constrain (x lo hi : ℚ) : ℚ :=
  if x < lo then lo else if x > hi then hi else x

/-- One touch slot reported by the Trill sensor for the vertical axis:
`touchLocation(i)` and `touchSize(i)` of `render.cpp`. A slot with
location 0 counts as inactive (the "no touch" sentinel). -/
structure TouchReading where
  location : Int
  size : Int
  deriving DecidableEq, Repr

/-- Running sums of the vertical aggregation loop of `loop` in
`render.cpp` (lines 79-89): the variables `avgLocation`, `avgSize` and
`numTouches` right after the `for` loop, before the division. -/
structure VertAgg where
  avgLocation : Int
  avgSize : Int
  numTouches : Int
  deriving DecidableEq, Repr

/-- Vertical aggregation loop of `loop` in `render.cpp`: for each slot
with nonzero location, add its location and size to the running sums and
increment `numTouches`. -/
def aggregateVertical (touches : List TouchReading) : VertAgg :=
  touches.foldl
    (fun acc t =>
      if t.location ≠ 0 then
        { avgLocation := acc.avgLocation + t.location
          avgSize := acc.avgSize + t.size
          numTouches := acc.numTouches + 1 }
      else acc)
    ⟨0, 0, 0⟩

/-- Running sums of the horizontal aggregation loop of `loop` in
`render.cpp` (lines 97-105). -/
structure HorizAgg where
  avgHorizontalLocation : Int
  numHorizontalTouches : Int
  deriving DecidableEq, Repr

/-- Horizontal aggregation loop of `loop` in `render.cpp`: for each slot
with nonzero horizontal location, add it and count it. -/
def aggregateHorizontal (hLocs : List Int) : HorizAgg :=
  hLocs.foldl
    (fun acc l =>
      if l ≠ 0 then
        { avgHorizontalLocation := acc.avgHorizontalLocation + l
          numHorizontalTouches := acc.numHorizontalTouches + 1 }
      else acc)
    ⟨0, 0⟩

/-- Model of the C expression `(int)floor(1.0f * sum / count)` used in
`loop` of `render.cpp` (lines 90, 91, 106). For `count = 0` the C code
computes `0.0f / 0.0f`, a NaN, whose conversion to `int` is undefined
behaviour; no defined value exists, modelled by `none`. For positive
`count` the float quotient is exact enough over the sensor value range
that the stored value is the floor of the exact quotient, which is the
floored integer division `Int.fdiv sum count`. -/
def floorMean (sum count : Int) : Option Int :=
  if count = 0 then none else some (Int.fdiv sum count)

/-- Raw (pre-normalization) aggregated vertical location of one poll
cycle: the value of the `avgLocation` variable after line 90 of
`render.cpp`. -/
def rawAvgLocation (touches : List TouchReading) : Option Int :=
  floorMean (aggregateVertical touches).avgLocation (aggregateVertical touches).numTouches

/-- Published control state: the globals `gTouchPosition[1]`
(vertical), `gTouchPosition[0]` (horizontal) and `gTouchSize` of
`render.cpp`. A field is `none` when the cycle that produced it divided
by a zero touch count, so the stored float is derived from a NaN through
an undefined `int` conversion and has no defined value. -/
structure ControlState where
  verticalPosition : Option ℚ
  horizontalPosition : Option ℚ
  size : Option ℚ
  deriving DecidableEq, Repr

/-- One iteration of the sensor poll loop `loop` of `render.cpp`
(lines 79-109): aggregate the vertical and horizontal touch slots,
divide each sum by its active count, map the averages into `[0, 1]`
with the ranges `gTouchSizeRange = {500, 6000}` and `0..1792`, clamp,
and publish. The previous values of the globals are unconditionally
overwritten; they do not enter the computation. -/
def pollCycle (touches : List TouchReading) (hLocs : List Int) : ControlState :=
  { size :=
      (floorMean (aggregateVertical touches).avgSize
          (aggregateVertical touches).numTouches).map
        (fun avgSize => constrain (map (avgSize : ℚ) 500 6000 0 1) 0 1)
    verticalPosition :=
      (floorMean (aggregateVertical touches).avgLocation
          (aggregateVertical touches).numTouches).map
        (fun avgLocation => constrain (map (avgLocation : ℚ) 0 1792 0 1) 0 1)
    horizontalPosition :=
      (floorMean (aggregateHorizontal hLocs).avgHorizontalLocation
          (aggregateHorizontal hLocs).numHorizontalTouches).map
        (fun avgH => constrain (map (avgH : ℚ) 0 1792 0 1) 0 1) }

/-- State of a OnePole low-pass filter instance: `y` is the previous
output (the single-pole memory), `a` the smoothing coefficient. -/
structure SmootherState (α : Type) where
  y : α
  a : α
  deriving DecidableEq, Repr

/-- Modelled from the spec: the OnePole library (part of the Bela
runtime, not under the example sources) computes
`y' = y + a * (x - y)`, stores `y'` as the new state and returns it. -/
def OnePole.process {α : Type} [CommRing α] (s : SmootherState α) (x : α) :
    α × SmootherState α :=
  let yNew := s.y + s.a * (x - s.y)
  (yNew, ⟨yNew, s.a⟩)

/-- Modelled from the spec: `OnePole.setup(cutoffHz, sampleRateHz)`
precomputes the smoothing coefficient with the standard one-pole
discretization `a = 1 - exp(-2 * pi * cutoffHz / sampleRateHz)`. -/
noncomputable def OnePole.setupCoeff (cutoffHz sampleRateHz : ℝ) : ℝ :=
  1 - Real.exp (-(2 * Real.pi * cutoffHz / sampleRateHz))

/-- Output sequence of a OnePole filter driven by the constant input `x`
from initial state `y0`: repeated calls to `OnePole.process`, as in
`render` of `render.cpp` where the control value is held between sensor
updates. -/
noncomputable def smoothIter (a x y0 : ℝ) : ℕ → ℝ
  | 0 => y0
  | n + 1 => (OnePole.process ⟨smoothIter a x y0 n, a⟩ x).1

/-- The three OnePole filter instances of `render.cpp`: `freqFilt`,
`panFilt` and `ampFilt`. -/
structure FrameSmoothers where
  freqFilt : SmootherState ℚ
  panFilt : SmootherState ℚ
  ampFilt : SmootherState ℚ
  deriving DecidableEq, Repr

/-- Per-frame values computed by the body of `render` in `render.cpp`:
the smoothed oscillator frequency, the channel gains `gAmpL`/`gAmpR`
and the output sample `out`. -/
structure FrameOut where
  frequency : ℚ
  gAmpL : ℚ
  gAmpR : ℚ
  out : ℚ
  deriving DecidableEq, Repr

/-- One iteration of the per-frame loop of `render` in `render.cpp`
(lines 147-166): map the vertical position into the frequency range
`gFreqRange = {200, 1500}` and smooth it, smooth the horizontal
position into the panning gains `gAmpL = 1 - panning`,
`gAmpR = panning`, smooth the touch size into the amplitude, and form
the output sample `out = amplitude * raw` where `raw` is the sample
produced by the black-box oscillator `osc.process()`. -/
def renderFrame (vertical horizontal size raw : ℚ) (s : FrameSmoothers) :
    FrameOut × FrameSmoothers :=
  let freqStep := OnePole.process s.freqFilt (map vertical 0 1 200 1500)
  let panStep := OnePole.process s.panFilt horizontal
  let gAmpL := 1 - panStep.1
  let gAmpR := panStep.1
  let ampStep := OnePole.process s.ampFilt size
  let out := ampStep.1 * raw
  (⟨freqStep.1, gAmpL, gAmpR, out⟩, ⟨freqStep.2, panStep.2, ampStep.2⟩)

/-- Body of the channel loop of `render` in `render.cpp`
(lines 169-175): channel 0 is written `gAmpL * out`, channel 1 is
written `gAmpR * out`, any other channel is not written. -/
def audioWriteStep (gAmpL gAmpR out : ℚ) (buf : List ℚ) (channel : ℕ) : List ℚ :=
  if channel = 0 then buf.set channel (gAmpL * out)
  else if channel = 1 then buf.set channel (gAmpR * out)
  else buf

/-- Channel loop of `render` in `render.cpp` (lines 169-175): iterate
`audioWriteStep` over channels `0, ..., audioOutChannels - 1` on the
frame output buffer. -/
def audioWriteLoop (audioOutChannels : ℕ) (gAmpL gAmpR out : ℚ)
    (buf : List ℚ) : List ℚ :=
  (List.range audioOutChannels).foldl (audioWriteStep gAmpL gAmpR out) buf

/-- One full frame of `render` in `render.cpp`: compute the per-frame
values, then run the channel write loop on the output buffer of the
frame. -/
def renderFrameToBuf (vertical horizontal size raw : ℚ) (s : FrameSmoothers)
    (audioOutChannels : ℕ) (buf : List ℚ) : List ℚ × FrameSmoothers :=
  let r := renderFrame vertical horizontal size raw s
  (audioWriteLoop audioOutChannels r.1.gAmpL r.1.gAmpR r.1.out buf, r.2)

/-- Outcome of `initFile` in `main.cpp`, by exit path. The C function
returns `1` on the first three paths, `0` on success; on an allocation
failure `new float[]` raises `std::bad_alloc` instead of returning. -/
inductive InitResult where
  | openFailed
  | notMono
  | allocFailed
  | threwBadAlloc
  | ok
  deriving DecidableEq, Repr

/-- Return value of `initFile` for each outcome: `1` for the three
explicit failure paths, `0` for success, and no return value at all
when `new float[]` throws. -/
def InitResult.code : InitResult → Option Int
  | .openFailed => some 1
  | .notMono => some 1
  | .allocFailed => some 1
  | .threwBadAlloc => none
  | .ok => some 0

/-- Fields of the libsndfile `SF_INFO` structure that `initFile`
reads. -/
structure SF_INFO where
  channels : Int
  frames : Int
  format : ℕ
  deriving DecidableEq, Repr

def SF_FORMAT_SUBMASK : ℕ := 0xFFFF

def SF_FORMAT_FLOAT : ℕ := 0x0006

def SF_FORMAT_DOUBLE : ℕ := 0x0007

/-- The `SampleData` record of the samples example: `samples` models
the `float *` buffer (`none` is a null pointer, `some` an allocated
buffer with its contents) and `sampleLen` the stored length. `main`
initialises it to `⟨none, -1⟩`. -/
structure SampleData where
  samples : Option (List ℚ)
  sampleLen : Int
  deriving DecidableEq, Repr

/-- The `initFile` function of `main.cpp` (lines 38-87). External
collaborators are passed as inputs: `openRes` is the result of
`sf_open` (`none` when the file cannot be opened, otherwise the
`SF_INFO` the library fills in), `content` the samples `sf_read_float`
can deliver, `allocFails` whether `new float[]` fails (in which case it
throws `std::bad_alloc` and the function never returns), `signalMax`
the peak value reported by `sf_command(SFC_CALC_SIGNAL_MAX)`, and
`smpIsNull` whether the `SampleData *smp` argument is a null pointer.
The post-allocation check `if(smp == NULL)` of line 57 tests that
pointer argument, not the freshly allocated `smp->samples` buffer; the
model preserves this faithfully. The freshly allocated (uninitialised)
buffer is modelled as zeros; every cell of it is overwritten by the
read-and-pad steps before any use. -/
def initFile (smpIsNull allocFails : Bool) (openRes : Option SF_INFO)
    (content : List ℚ) (signalMax : ℚ) (smp : SampleData) :
    InitResult × SampleData :=
  match openRes with
  | none => (.openFailed, smp)
  | some sfinfo =>
    let numChan := sfinfo.channels
    if numChan ≠ 1 then (.notMono, smp)
    else
      let sampleLen := sfinfo.frames * numChan
      if allocFails then (.threwBadAlloc, { smp with sampleLen := sampleLen })
      else
        let smp1 : SampleData :=
          { samples := some (List.replicate sampleLen.toNat 0)
            sampleLen := sampleLen }
        if smpIsNull then (.allocFailed, smp1)
        else
          let readcount := min sampleLen.toNat content.length
          let samples := content.take readcount ++
            List.replicate (sampleLen.toNat - readcount) 0
          let smp2 : SampleData := { smp1 with samples := some samples }
          let subformat := sfinfo.format &&& SF_FORMAT_SUBMASK
          if subformat = SF_FORMAT_FLOAT ∨ subformat = SF_FORMAT_DOUBLE then
            let scale : ℚ :=
              if signalMax < 1 / 10 ^ 10 then 1 else 32700 / signalMax
            (.ok, { smp2 with samples := some (samples.map (· * scale)) })
          else (.ok, smp2)

theorem constrain_mem (x lo hi : ℚ) (h : lo ≤ hi) :
    lo ≤ constrain x lo hi ∧ constrain x lo hi ≤ hi := by
  unfold constrain
  split_ifs with h1 h2 <;> constructor <;> linarith

/-- C1: the sensor poll loop of `render.cpp`, run on a cycle in which
every touch slot has location 0 (zero active touches), performs the
division `0.0f / 0.0f` for all three averages; each published value is
derived from a NaN through an undefined conversion to `int`, so no
defined value is published at all, and in particular the previous
`ControlState` is not retained. The theorem evaluates the embedded poll
cycle at such a reading: all three published fields are undefined. -/
theorem pollCycle_zero_touches_undefined :
    pollCycle [⟨0, 500⟩] [0] =
      { verticalPosition := none, horizontalPosition := none, size := none } := by
  decide

/-- Counterexample to C2 as stated: with exactly two active touches at
locations 1 and 2 the raw aggregated location computed by the loop of
`render.cpp` is `floor(3 / 2) = 1`, which is not the arithmetic mean
`(1 + 2) / 2 = 3 / 2`. -/
theorem rawAvgLocation_two_touches_not_mean :
    rawAvgLocation [⟨1, 10⟩, ⟨2, 20⟩] = some 1 ∧
      ((1 : ℚ) ≠ ((1 : ℚ) + 2) / 2) := by
  constructor
  · decide
  · norm_num

/-- C2 as amended: with exactly two active touches at locations `L1`
and `L2` (nonzero values in the sensor range, where the float
arithmetic of the source is exact), the raw aggregated location is the
floor of the arithmetic mean, because the averaging line of
`render.cpp` stores `floor(1.0f * (L1 + L2) / 2)` back into an `int`. -/
theorem rawAvgLocation_two_touches_floor (L1 L2 S1 S2 : Int)
    (h1 : 0 < L1) (h1b : L1 ≤ 4096) (h2 : 0 < L2) (h2b : L2 ≤ 4096) :
    rawAvgLocation [⟨L1, S1⟩, ⟨L2, S2⟩] = some ⌊((L1 : ℚ) + L2) / 2⌋ := by
  have hL1 : L1 ≠ 0 := h1.ne'
  have hL2 : L2 ≠ 0 := h2.ne'
  have hfloor : ⌊((L1 : ℚ) + L2) / 2⌋ = Int.fdiv (L1 + L2) 2 := by
    rw [Int.fdiv_eq_ediv _ (by norm_num)]
    have := Rat.floor_intCast_div_natCast (L1 + L2) 2
    push_cast at this ⊢
    exact this
  simp [rawAvgLocation, aggregateVertical, floorMean, hL1, hL2, hfloor]

/-- Witness for the amended C2 theorem at `L1 = 1`, `L2 = 2`. -/
theorem rawAvgLocation_two_touches_floor_witness :
    ((0 : Int) < 1 ∧ (1 : Int) ≤ 4096 ∧ (0 : Int) < 2 ∧ (2 : Int) ≤ 4096) ∧
      rawAvgLocation [⟨1, 10⟩, ⟨2, 20⟩] = some ⌊((1 : ℚ) + 2) / 2⌋ :=
  ⟨by decide,
   rawAvgLocation_two_touches_floor 1 2 10 20 (by decide) (by decide)
     (by decide) (by decide)⟩

/-- Counterexample to C3 as stated: on a poll cycle with zero active
touches none of the three published values is a defined number at all
(each is derived from `0.0f / 0.0f`), so they do not lie in `[0, 1]`. -/
theorem pollCycle_no_touch_values_undefined :
    (pollCycle [] []).verticalPosition = none ∧
      (pollCycle [] []).horizontalPosition = none ∧
      (pollCycle [] []).size = none := by
  decide

/-- C3 as amended: whenever a poll cycle of `render.cpp` publishes a
defined value (its axis observed at least one active touch, so the
average is a real number), that value lies in `[0, 1]`, because every
published value passes through `constrain(_, 0, 1)`. -/
theorem pollCycle_defined_values_in_unit_interval
    (touches : List TouchReading) (hLocs : List Int) (q : ℚ) :
    ((pollCycle touches hLocs).verticalPosition = some q → 0 ≤ q ∧ q ≤ 1) ∧
      ((pollCycle touches hLocs).horizontalPosition = some q → 0 ≤ q ∧ q ≤ 1) ∧
      ((pollCycle touches hLocs).size = some q → 0 ≤ q ∧ q ≤ 1) := by
  refine ⟨fun hq => ?_, fun hq => ?_, fun hq => ?_⟩ <;>
  · simp only [pollCycle, Option.map_eq_some'] at hq
    obtain ⟨v, -, rfl⟩ := hq
    exact constrain_mem _ 0 1 (by norm_num)

/-- Witness for the amended C3 theorem: a cycle with one touch at the
midpoint of both ranges publishes `1 / 2` for the vertical position,
which lies in `[0, 1]`. -/
theorem pollCycle_unit_interval_witness :
    (pollCycle [⟨896, 3250⟩] [896]).verticalPosition = some (1 / 2) ∧
      (0 ≤ (1 / 2 : ℚ) ∧ (1 / 2 : ℚ) ≤ 1) :=
  ⟨by norm_num [pollCycle, aggregateVertical, floorMean, map, constrain],
   (pollCycle_defined_values_in_unit_interval [⟨896, 3250⟩] [896] (1 / 2)).1
     (by norm_num [pollCycle, aggregateVertical, floorMean, map, constrain])⟩

/-- C4: the range mapper called with a degenerate input range
(`inMin = inMax`) returns the defined fallback `outMin` for every
input value and output range, rather than an undefined
division-by-zero result. -/
theorem map_degenerate_range_returns_outMin (value c outMin outMax : ℚ) :
    map value c c outMin outMax = outMin := by
  simp [map]

/-- C5: a OnePole filter processed with an input equal to its current
state returns that state and leaves the filter state unchanged; the
state is a fixed point of `process`. -/
theorem onePole_process_fixed_point (s : SmootherState ℚ) :
    OnePole.process s s.y = (s.y, s) := by
  simp [OnePole.process]

/-- C7: in the per-frame pipeline of `render.cpp` the channel gains of
every frame satisfy `gAmpL = 1 - panning` and `gAmpR = panning`, where
`panning` is the smoothed pan value produced by `panFilt` on the
horizontal position; in particular panning `0` gives gains `(1, 0)`,
`1` gives `(0, 1)` and `1 / 2` gives `(1 / 2, 1 / 2)`. -/
theorem renderFrame_pan_gains (vertical horizontal size raw : ℚ)
    (s : FrameSmoothers) :
    (renderFrame vertical horizontal size raw s).1.gAmpL =
        1 - (OnePole.process s.panFilt horizontal).1 ∧
      (renderFrame vertical horizontal size raw s).1.gAmpR =
        (OnePole.process s.panFilt horizontal).1 :=
  ⟨rfl, rfl⟩

theorem setupCoeff_pos_lt_one (cutoffHz sampleRateHz : ℝ)
    (hfc : 0 < cutoffHz) (hfs : 0 < sampleRateHz) :
    0 < OnePole.setupCoeff cutoffHz sampleRateHz ∧
      OnePole.setupCoeff cutoffHz sampleRateHz < 1 := by
  unfold OnePole.setupCoeff
  have ht : 0 < 2 * Real.pi * cutoffHz / sampleRateHz :=
    div_pos (mul_pos (mul_pos two_pos Real.pi_pos) hfc) hfs
  have hlt : Real.exp (-(2 * Real.pi * cutoffHz / sampleRateHz)) < 1 :=
    Real.exp_lt_one_iff.mpr (by linarith)
  have hpos := Real.exp_pos (-(2 * Real.pi * cutoffHz / sampleRateHz))
  constructor <;> linarith

theorem smoothIter_closed_form (a x y0 : ℝ) (n : ℕ) :
    smoothIter a x y0 n = x - (1 - a) ^ n * (x - y0) := by
  induction n with
  | zero => simp [smoothIter]
  | succ n ih =>
    simp only [smoothIter, OnePole.process, ih]
    ring

/-- C6: a OnePole smoother with coefficient computed by `setup` from a
positive cutoff below the Nyquist rate, fed a constant input `x` over
repeated calls, produces a monotonic output sequence that never
crosses to the far side of `x` and converges to `x`. -/
theorem smoothIter_monotone_no_overshoot_converges
    (cutoffHz sampleRateHz x y0 a : ℝ) (hfc : 0 < cutoffHz)
    (hfs : 0 < sampleRateHz) (hnyq : cutoffHz < sampleRateHz / 2)
    (ha : a = OnePole.setupCoeff cutoffHz sampleRateHz) :
    (y0 ≤ x → Monotone (smoothIter a x y0) ∧ ∀ n, smoothIter a x y0 n ≤ x) ∧
      (x ≤ y0 → Antitone (smoothIter a x y0) ∧ ∀ n, x ≤ smoothIter a x y0 n) ∧
      Filter.Tendsto (smoothIter a x y0) Filter.atTop (nhds x) := by
  obtain ⟨ha0, ha1⟩ := setupCoeff_pos_lt_one _ _ hfc hfs
  rw [← ha] at ha0 ha1
  have hc0 : (0 : ℝ) ≤ 1 - a := by linarith
  have hc1 : 1 - a < 1 := by linarith
  have hpowle : ∀ n : ℕ, (1 - a) ^ (n + 1) ≤ (1 - a) ^ n := fun n =>
    pow_le_pow_of_le_one hc0 (by linarith) (Nat.le_succ n)
  refine ⟨fun hyx => ⟨?_, ?_⟩, fun hxy => ⟨?_, ?_⟩, ?_⟩
  · apply monotone_nat_of_le_succ
    intro n
    rw [smoothIter_closed_form, smoothIter_closed_form]
    have h1 : (1 - a) ^ (n + 1) * (x - y0) ≤ (1 - a) ^ n * (x - y0) :=
      mul_le_mul_of_nonneg_right (hpowle n) (by linarith)
    linarith
  · intro n
    rw [smoothIter_closed_form]
    have h1 : 0 ≤ (1 - a) ^ n * (x - y0) :=
      mul_nonneg (pow_nonneg hc0 n) (by linarith)
    linarith
  · apply antitone_nat_of_succ_le
    intro n
    rw [smoothIter_closed_form, smoothIter_closed_form]
    have h1 : (1 - a) ^ n * (x - y0) ≤ (1 - a) ^ (n + 1) * (x - y0) :=
      mul_le_mul_of_nonpos_right (hpowle n) (by linarith)
    linarith
  · intro n
    rw [smoothIter_closed_form]
    have h1 : (1 - a) ^ n * (x - y0) ≤ 0 :=
      mul_nonpos_of_nonneg_of_nonpos (pow_nonneg hc0 n) (by linarith)
    linarith
  · have hgeom : Filter.Tendsto (fun n : ℕ => (1 - a) ^ n) Filter.atTop (nhds 0) :=
      tendsto_pow_atTop_nhds_zero_of_lt_one hc0 hc1
    have hfun : smoothIter a x y0 = fun n => x - (1 - a) ^ n * (x - y0) :=
      funext (smoothIter_closed_form a x y0)
    rw [hfun]
    simpa using tendsto_const_nhds.sub (hgeom.mul_const (x - y0))

/-- Witness for the C6 theorem at cutoff 1 Hz, sample rate 4 Hz,
constant input 1, initial state 0. -/
theorem smoothIter_monotone_converges_witness :
    (0 : ℝ) < 1 ∧ (0 : ℝ) < 4 ∧ (1 : ℝ) < 4 / 2 ∧
      (((0 : ℝ) ≤ 1 →
          Monotone (smoothIter (OnePole.setupCoeff 1 4) 1 0) ∧
            ∀ n, smoothIter (OnePole.setupCoeff 1 4) 1 0 n ≤ 1) ∧
        ((1 : ℝ) ≤ 0 →
          Antitone (smoothIter (OnePole.setupCoeff 1 4) 1 0) ∧
            ∀ n, (1 : ℝ) ≤ smoothIter (OnePole.setupCoeff 1 4) 1 0 n) ∧
        Filter.Tendsto (smoothIter (OnePole.setupCoeff 1 4) 1 0)
          Filter.atTop (nhds 1)) :=
  ⟨by norm_num, by norm_num, by norm_num,
   smoothIter_monotone_no_overshoot_converges 1 4 1 0 (OnePole.setupCoeff 1 4)
     (by norm_num) (by norm_num) (by norm_num) rfl⟩

theorem audioWriteStep_preserves_beyond_one (gAmpL gAmpR out : ℚ)
    (buf : List ℚ) (c ch : ℕ) (hch : 1 < ch) :
    (audioWriteStep gAmpL gAmpR out buf c)[ch]? = buf[ch]? := by
  unfold audioWriteStep
  split_ifs with h0 h1
  · subst h0
    exact List.getElem?_set_ne (by omega)
  · subst h1
    exact List.getElem?_set_ne (by omega)
  · rfl

theorem audioWriteLoop_foldl_preserves_beyond_one (gAmpL gAmpR out : ℚ)
    (ch : ℕ) (hch : 1 < ch) :
    ∀ (chs : List ℕ) (buf : List ℚ),
      (chs.foldl (audioWriteStep gAmpL gAmpR out) buf)[ch]? = buf[ch]? := by
  intro chs
  induction chs with
  | nil => intro buf; rfl
  | cons c cs ih =>
    intro buf
    rw [List.foldl_cons, ih]
    exact audioWriteStep_preserves_beyond_one gAmpL gAmpR out buf c ch hch

/-- C8: a frame rendered by the pipeline of `render.cpp` writes only
channels 0 and 1; every output channel with index greater than 1 is
left exactly as it was in the buffer, for any channel count and any
control and oscillator values. -/
theorem renderFrame_channels_beyond_one_unchanged
    (vertical horizontal size raw : ℚ) (s : FrameSmoothers)
    (audioOutChannels : ℕ) (buf : List ℚ) (ch : ℕ) (hch : 1 < ch) :
    ((renderFrameToBuf vertical horizontal size raw s audioOutChannels buf).1)[ch]? =
      buf[ch]? := by
  unfold renderFrameToBuf audioWriteLoop
  exact audioWriteLoop_foldl_preserves_beyond_one _ _ _ ch hch _ buf

/-- Witness for the C8 theorem: with four output channels and buffer
`[5, 6, 7, 8]`, channel 2 still holds `7` after the frame is written. -/
theorem renderFrame_channels_witness :
    1 < 2 ∧
      ((renderFrameToBuf 0 0 0 0 ⟨⟨0, 0⟩, ⟨0, 0⟩, ⟨0, 0⟩⟩ 4 [5, 6, 7, 8]).1)[2]? =
        [(5 : ℚ), 6, 7, 8][2]? :=
  ⟨by decide,
   renderFrame_channels_beyond_one_unchanged 0 0 0 0 ⟨⟨0, 0⟩, ⟨0, 0⟩, ⟨0, 0⟩⟩ 4
     [5, 6, 7, 8] 2 (by decide)⟩

/-- C9: `initFile` of `main.cpp` called on a file whose channel count
is not 1 returns the non-success code `1` and leaves the `SampleData`
record untouched: no sample buffer is allocated and the `samples`
pointer is unchanged. -/
theorem initFile_non_mono_rejected (smpIsNull allocFails : Bool)
    (sfinfo : SF_INFO) (content : List ℚ) (signalMax : ℚ) (smp : SampleData)
    (hch : sfinfo.channels ≠ 1) :
    (initFile smpIsNull allocFails (some sfinfo) content signalMax smp).1.code =
        some 1 ∧
      (initFile smpIsNull allocFails (some sfinfo) content signalMax smp).2 =
        smp := by
  simp [initFile, hch, InitResult.code]

/-- Witness for the C9 theorem: a 2-channel file with the `SampleData`
record exactly as `main` initialises it (`samples = null`,
`sampleLen = -1`). -/
theorem initFile_non_mono_rejected_witness :
    ((2 : Int) ≠ 1) ∧
      ((initFile false false (some ⟨2, 100, 2⟩) [] 0 ⟨none, -1⟩).1.code = some 1 ∧
        (initFile false false (some ⟨2, 100, 2⟩) [] 0 ⟨none, -1⟩).2 = ⟨none, -1⟩) :=
  ⟨by decide,
   initFile_non_mono_rejected false false ⟨2, 100, 2⟩ [] 0 ⟨none, -1⟩ (by decide)⟩

/-- C10: when `initFile` of `main.cpp` is called with a non-null
`SampleData` pointer, the `Could not allocate buffer` branch is
unreachable for every possible input — including runs in which the
allocation really does fail (then `new float[]` throws and the check
never runs) — because the line `if(smp == NULL)` tests the pointer
passed by the caller, not the freshly allocated `smp->samples`
buffer. -/
theorem initFile_alloc_check_unreachable (smpIsNull allocFails : Bool)
    (openRes : Option SF_INFO) (content : List ℚ) (signalMax : ℚ)
    (smp : SampleData) (hNull : smpIsNull = false) :
    (initFile smpIsNull allocFails openRes content signalMax smp).1 ≠
      InitResult.allocFailed := by
  subst hNull
  cases openRes with
  | none => simp [initFile]
  | some sfinfo =>
    simp only [initFile]
    split_ifs <;> simp_all

/-- Witness for the C10 theorem: a run on a mono file in which the
allocation fails still does not reach the `allocFailed` branch (the
exception propagates instead). -/
theorem initFile_alloc_check_unreachable_witness :
    (false = false) ∧
      (initFile false true (some ⟨1, 4, 6⟩) [1] 1 ⟨none, -1⟩).1 ≠
        InitResult.allocFailed :=
  ⟨rfl,
   initFile_alloc_check_unreachable false true (some ⟨1, 4, 6⟩) [1] 1 ⟨none, -1⟩ rfl⟩
